import Mathlib

/-!
Verification development for the `back-scraping-FJ-limpieza` repository.

The Lean definitions below are a shallow embedding of the Python sources:

* `flows/funcion_judicial.py` — the browser retrieval strategy
  (`process_funcion_judicial_once` / `process_funcion_judicial`), the
  next-page-enabled check (`is_next_button_enabled`) and the pagination
  walker (`capture_all_result_pages`);
* `app/services/fj_httpx_fallback.py` — the HTTPX API fallback client
  (`_consultar_pagina_api`, `generar_reporte_httpx`);
* `app/services/daemon_procesador.py` — the work-queue daemon
  (`_crear_proceso_para_cliente`, `_ejecutar_consulta_funcion_judicial`,
  `_procesar_lote_clientes`, `_daemon_loop`).

Selenium, the HTTP stack, the DOM, the database and the filesystem are
modelled as explicit inputs (environments); exceptions raised by the
Python code are modelled with an explicit result type `PyResult`.
All definitions are executable, so concrete runs evaluate by `decide`/`rfl`.
-/

set_option autoImplicit false

namespace FJ

/-- Result of evaluating a piece of Python code: a value, or a raised
exception carrying its message. -/
inductive PyResult (α : Type) where
  | ok (val : α)
  | exn (msg : String)
deriving Repr, DecidableEq

/-- Python substring test `needle in hay` on strings. -/
def pyInStr (needle hay : String) : Bool :=
  decide (List.IsInfix needle.toList hay.toList)

/-! ## Name resolution in `flows/funcion_judicial.py` (claim C1)

The module-level bindings of `flows/funcion_judicial.py` are transcribed
from its import statements (lines 7-32) and its `def`/assignment
statements.  Python resolves a free name inside a function body against
these module-level bindings (plus builtins); calling a name that is bound
nowhere raises `NameError` at the call site. -/

/-- Names bound by the import statements of `flows/funcion_judicial.py`
(lines 7-32 of the source, in order). -/
def funcion_judicial_imports : List String :=
  ["time", "random", "Optional", "Dict", "List", "datetime",
   "By", "WebDriverWait", "EC", "TimeoutException", "NoSuchElementException",
   "create_driver", "close_driver", "log", "save_fullpage_png",
   "random_scroll_smooth", "human_like_scroll_and_read",
   "move_mouse_in_circle", "move_mouse_zigzag", "move_mouse_bezier_curve",
   "human_type_advanced", "human_click_element", "human_click_offset",
   "resolver_recaptcha_si_necesario", "MAX_RETRIES"]

/-- Names bound at module level by `def`s and assignments of
`flows/funcion_judicial.py`. -/
def funcion_judicial_defs : List String :=
  ["FUNCION_JUDICIAL_URL", "_slug", "_save_screenshot",
   "find_name_input", "find_search_button", "find_next_page_button",
   "detect_no_results_modal", "detect_results_loaded",
   "is_next_button_enabled", "capture_results_page",
   "capture_no_results_screenshot", "capture_all_result_pages",
   "process_funcion_judicial_once", "process_funcion_judicial"]

/-- The names a free identifier inside `flows/funcion_judicial.py` can
resolve to. -/
def funcion_judicial_scope : List String :=
  funcion_judicial_imports ++ funcion_judicial_defs

/-- The functions defined in `core/human.py` (the module the scraper
imports its human-simulation helpers from). -/
def core_human_defs : List String :=
  ["wait_smart", "scroll_smart", "move_bezier",
   "human_click_smart", "human_type_smart"]

/-- Calling a function by name: if the name is not bound in the module
scope, Python raises `NameError`; otherwise the call behaves as `impl`. -/
def pyCall {α : Type} (scope : List String) (name : String)
    (impl : PyResult α) : PyResult α :=
  if name ∈ scope then impl else .exn "NameError"

/-- A call to a bound name behaves as its implementation. -/
theorem pyCall_mem {α : Type} (scope : List String) (name : String)
    (impl : PyResult α) (h : name ∈ scope) :
    pyCall scope name impl = impl := by
  unfold pyCall
  rw [if_pos h]

/-- A call to an unbound name raises `NameError`. -/
theorem pyCall_not_mem {α : Type} (scope : List String) (name : String)
    (impl : PyResult α) (h : name ∉ scope) :
    pyCall scope name impl = .exn "NameError" := by
  unfold pyCall
  rw [if_neg h]

/-! ## The next-page-enabled check `is_next_button_enabled` (claim C8)

The observable state of the "next page" button is modelled as pure data:
the values the Selenium calls in the source return.  `paginatorLabel` is
the parsed "X–Y de Z" range label; `none` covers every case in which the
step-5 block of the source yields no parsed info (no enclosing
`mat-paginator`, no range label, no regex match, or an exception inside
that block, which the source catches and ignores). -/

structure NextButton where
  /-- `get_attribute("disabled")`: `none` when the attribute is absent. -/
  disabledAttr : Option String
  /-- `get_attribute("aria-disabled")`. -/
  ariaDisabled : Option String
  /-- `get_attribute("class")`: `none` is replaced by `""` in the source. -/
  classAttr : Option String
  /-- Result of the computed-style script of step 4 (pointer-events,
  display, visibility, `disabled` property). -/
  jsClickable : Bool
  /-- Parsed range label of step 5: label text, end value, total value. -/
  paginatorLabel : Option (String × Nat × Nat)
deriving Repr, DecidableEq

/-- The curated functionally-disabling CSS classes of the source
(`real_disabled_classes`, lines 266-269). -/
def real_disabled_classes : List String :=
  ["mat-button-disabled", "mdc-button--disabled"]

/-- Embedding of `is_next_button_enabled` (funcion_judicial.py 245-333).
Checks run in source order:
1. any present `disabled` attribute disables;
2. `aria-disabled == "true"` disables;
3. a curated disabling CSS class (Python substring test) disables —
   the cosmetic `mat-mdc-button-disabled-interactive` is only logged;
4. a failed computed-style script check disables;
5. a parsed range label with `end < total` false disables;
otherwise the button counts as enabled (the source also returns `True`
from its top-level exception handler). -/
def is_next_button_enabled (btn : NextButton) : Bool :=
  if btn.disabledAttr = some "true" ∨ btn.disabledAttr = some "disabled" ∨
      btn.disabledAttr.isSome then
    false
  else if btn.ariaDisabled = some "true" then
    false
  else
    let classes := btn.classAttr.getD ""
    if real_disabled_classes.any (fun c => pyInStr c classes) then
      false
    else if !btn.jsClickable then
      false
    else
      match btn.paginatorLabel with
      | some (_, endVal, total) => if ¬ endVal < total then false else true
      | none => true

/-! ## The pagination walker `capture_all_result_pages` (claim C7)

One loop iteration of the walker (source lines 409-529) consumes one
`PageEnv`: what the browser session does while trying to move from the
current page to the next one. -/

structure PageEnv where
  /-- Result of `find_next_page_button`: the button found, or `none`. -/
  buttonFound : Option NextButton
  /-- Whether `human_click_element` succeeds (click attempt 1; a raised
  exception is caught and counts as failure). -/
  humanClickOk : Bool
  /-- Whether the ActionChains click succeeds (click attempt 2). -/
  directClickOk : Bool
  /-- Whether the JavaScript click succeeds (click attempt 3). -/
  jsClickOk : Bool
  /-- Result of `capture_results_page` for the newly reached page:
  the screenshot path, or `none` when the capture failed. -/
  captureResult : Option String
deriving Repr, DecidableEq

/-- The three-stage click sequence of one iteration (source 450-485):
the iteration proceeds iff at least one click attempt succeeds. -/
def click_succeeds (e : PageEnv) : Bool :=
  e.humanClickOk || e.directClickOk || e.jsClickOk

/-- Embedding of `capture_results_page` (funcion_judicial.py 338-356):
its whole body — two `wait_random` calls between scrolls, then the
screenshot — sits in a `try` whose handler returns `None`.  So when
`wait_random` is unbound the `NameError` is swallowed here and the
capture yields `None`; when it is bound, the capture yields whatever the
screenshot attempt produced (`shot`). -/
def capture_results_page (scope : List String) (shot : Option String) :
    Option String :=
  match pyCall scope "wait_random" (PyResult.ok ()) with
  | .ok _ => shot
  | .exn _ => none

/-- The `while current_page < max_pages` loop of
`capture_all_result_pages` (source 409-529), with the remaining
iteration budget made explicit as `fuel = max_pages - current_page`.
Each iteration, in source order: find the button (break when absent),
the enabled check (break when disabled), the unguarded
`wait_random(0.8, 1.5)` of line 429, the movement block (its own `try`),
the unguarded `wait_random(0.5, 1.0)` of line 445, the three click
attempts (break when all fail), the unguarded waits of lines 491-511,
the capture (whose internal `try` swallows), the unguarded waits of
lines 523-524, then the next iteration.  Unguarded `wait_random` calls
separated only by bound calls or their own `try` blocks behave
identically under name resolution — all succeed, or the first raises —
so a single `pyCall` stands for each such group; an unguarded call
raises out of the loop: no handler exists in this function. -/
def capture_pages_loop (scope : List String) (env : Nat → PageEnv) :
    Nat → Nat → List String → PyResult (List String × Nat)
  | 0, current_page, shots => .ok (shots, current_page)
  | fuel + 1, current_page, shots =>
    match (env current_page).buttonFound with
    | none => .ok (shots, current_page)
    | some btn =>
      if is_next_button_enabled btn = false then .ok (shots, current_page)
      else
        match pyCall scope "wait_random" (PyResult.ok ()) with
        | .exn e => .exn e
        | .ok _ =>
          match pyCall scope "wait_random" (PyResult.ok ()) with
          | .exn e => .exn e
          | .ok _ =>
            if click_succeeds (env current_page) = false then
              .ok (shots, current_page)
            else
              match pyCall scope "wait_random" (PyResult.ok ()) with
              | .exn e => .exn e
              | .ok _ =>
                match pyCall scope "wait_random" (PyResult.ok ()) with
                | .exn e => .exn e
                | .ok _ =>
                  capture_pages_loop scope env fuel (current_page + 1)
                    (match capture_results_page scope
                        (env current_page).captureResult with
                     | some s => shots ++ [s]
                     | none => shots)

/-- Embedding of `capture_all_result_pages` (funcion_judicial.py
375-538): the first capture (line 392, its internal `try` swallows),
then the unguarded `wait_random` calls of lines 399 and 405 — separated
only by bound calls and outside any `try`, so a single `pyCall` stands
for the group and a `NameError` propagates out of the function — then
the loop.  `firstShot` is the screenshot attempt's outcome for page 1;
on normal exit the function returns the ordered screenshot list and the
final `current_page`. -/
def capture_all_result_pages (scope : List String) (env : Nat → PageEnv)
    (firstShot : Option String) (max_pages : Nat) :
    PyResult (List String × Nat) :=
  match capture_results_page scope firstShot with
  | some s =>
    match pyCall scope "wait_random" (PyResult.ok ()) with
    | .exn e => .exn e
    | .ok _ => capture_pages_loop scope env (max_pages - 1) 1 [s]
  | none =>
    match pyCall scope "wait_random" (PyResult.ok ()) with
    | .exn e => .exn e
    | .ok _ => capture_pages_loop scope env (max_pages - 1) 1 []

/-- The value the walker's loop computes when every `wait_random` call
succeeds (the evidently intended behavior): the exception-free
reference version of `capture_pages_loop`. -/
def capture_pages_loop_ok (env : Nat → PageEnv) :
    Nat → Nat → List String → List String × Nat
  | 0, current_page, shots => (shots, current_page)
  | fuel + 1, current_page, shots =>
    match (env current_page).buttonFound with
    | none => (shots, current_page)
    | some btn =>
      if is_next_button_enabled btn = false then (shots, current_page)
      else if click_succeeds (env current_page) = false then
        (shots, current_page)
      else
        capture_pages_loop_ok env fuel (current_page + 1)
          (match (env current_page).captureResult with
           | some s => shots ++ [s]
           | none => shots)

/-- The exception-free reference version of `capture_all_result_pages`:
the screenshot list and final page the walker returns under a scope in
which `wait_random` is bound. -/
def capture_all_result_pages_ok (env : Nat → PageEnv)
    (firstShot : Option String) (max_pages : Nat) :
    List String × Nat :=
  capture_pages_loop_ok env (max_pages - 1) 1
    (match firstShot with
     | some s => [s]
     | none => [])

/-- When `wait_random` is bound, the capture yields the screenshot
attempt's outcome. -/
theorem capture_results_page_mem (scope : List String)
    (shot : Option String) (h : "wait_random" ∈ scope) :
    capture_results_page scope shot = shot := by
  unfold capture_results_page
  rw [pyCall_mem _ _ _ h]

/-- When `wait_random` is bound, the walker's loop never raises and
computes its exception-free reference value. -/
theorem capture_pages_loop_mem (scope : List String) (env : Nat → PageEnv)
    (h : "wait_random" ∈ scope) :
    ∀ (fuel page : Nat) (shots : List String),
      capture_pages_loop scope env fuel page shots =
        .ok (capture_pages_loop_ok env fuel page shots) := by
  have hc : pyCall scope "wait_random" (PyResult.ok ()) = PyResult.ok () :=
    pyCall_mem _ _ _ h
  have hcap : ∀ shot, capture_results_page scope shot = shot :=
    fun shot => capture_results_page_mem _ _ h
  intro fuel
  induction fuel with
  | zero => intro page shots; rfl
  | succ f ih =>
    intro page shots
    unfold capture_pages_loop capture_pages_loop_ok
    cases (env page).buttonFound with
    | none => rfl
    | some btn =>
      by_cases hen : is_next_button_enabled btn = false <;>
        by_cases hclick : click_succeeds (env page) = false <;>
        simp [hen, hclick, hc, hcap, ih]

/-- Each loop iteration of the reference version grows the screenshot
list by at most one and advances the page counter by at most one per
unit of fuel. -/
theorem capture_pages_loop_ok_bounds (env : Nat → PageEnv) :
    ∀ (fuel page : Nat) (shots : List String),
      (capture_pages_loop_ok env fuel page shots).1.length ≤
        shots.length + fuel ∧
      (capture_pages_loop_ok env fuel page shots).2 ≤ page + fuel := by
  intro fuel
  induction fuel with
  | zero =>
    intro page shots
    exact ⟨Nat.le_add_right _ _, Nat.le_add_right _ _⟩
  | succ f ih =>
    intro page shots
    unfold capture_pages_loop_ok
    split
    · exact ⟨Nat.le_add_right _ _, Nat.le_add_right _ _⟩
    · split
      · exact ⟨Nat.le_add_right _ _, Nat.le_add_right _ _⟩
      · split
        · exact ⟨Nat.le_add_right _ _, Nat.le_add_right _ _⟩
        · have hlen :
              (match (env page).captureResult with
               | some s => shots ++ [s]
               | none => shots).length ≤ shots.length + 1 := by
            cases (env page).captureResult <;> simp
          have h := ih (page + 1)
            (match (env page).captureResult with
             | some s => shots ++ [s]
             | none => shots)
          exact ⟨h.1.trans (by omega), h.2.trans (by omega)⟩

/-! ## The browser retrieval strategy (claim C1)

`process_funcion_judicial_once` (funcion_judicial.py 543-797) is one
big `try` block.  Its first statements are `create_driver`,
`driver.get(FUNCION_JUDICIAL_URL)`, a `log` call, and then — directly
after navigation — the call `wait_random(5.0, 8.0)` (line 566).  The
remainder of the body (`rest`) is modelled as an arbitrary continuation:
the theorems quantify over it, so nothing depends on transcribing
statements that execution cannot reach.  The `except Exception` handler
(lines 781-789) attempts a diagnostic screenshot and returns `None`. -/

/-- The result dictionary built by a successful run of
`process_funcion_judicial_once`: the fields the daemon reads. -/
structure Resultado where
  success : Bool
  nombre_buscado : String
  scenario : String
  mensaje : String
  screenshots : List (Option String)
  total_pages : Nat
  screenshot_path : Option String
deriving Repr, DecidableEq

/-- The parts of the browser world the reachable prefix of the body
touches: whether `create_driver` and `driver.get` raise. -/
structure OnceWorld where
  createDriverOk : Bool
  navigateOk : Bool
deriving Repr, DecidableEq

/-- The body of `process_funcion_judicial_once` inside its `try`:
driver creation, navigation, then the free-name call `wait_random`
(line 566), then the rest of the function (an arbitrary continuation). -/
def process_funcion_judicial_once_body (scope : List String)
    (w : OnceWorld) (rest : PyResult Resultado) : PyResult Resultado :=
  match pyCall scope "create_driver"
      (if w.createDriverOk then .ok () else .exn "WebDriverException") with
  | .exn e => .exn e
  | .ok _ =>
    match (if w.navigateOk then PyResult.ok () else .exn "WebDriverException") with
    | .exn e => .exn e
    | .ok _ =>
      match pyCall scope "wait_random" (.ok ()) with
      | .exn e => .exn e
      | .ok _ => rest

/-- Embedding of `process_funcion_judicial_once` (funcion_judicial.py
543-797): run the body; the `except Exception` handler turns every
raised exception into a `None` return. -/
def process_funcion_judicial_once (w : OnceWorld)
    (rest : PyResult Resultado) : Option Resultado :=
  match process_funcion_judicial_once_body funcion_judicial_scope w rest with
  | .ok r => some r
  | .exn _ => none

/-- Output of `process_funcion_judicial`: either the result dictionary
of a successful attempt, or one of the two error dictionaries. -/
inductive FJOutput where
  | data (r : Resultado)
  | errorDict (msg : String)
deriving Repr, DecidableEq

/-- Whether an `FJOutput` is an error dictionary. -/
def FJOutput.isErrorDict : FJOutput → Bool
  | .data _ => false
  | .errorDict _ => true

/-- The retry loop of `process_funcion_judicial` (funcion_judicial.py
810-822): attempts `1..MAX_RETRIES`; any truthy result returns at once,
a `None` result (or a caught exception) falls through to the next
attempt. -/
def process_funcion_judicial_attempts (worlds : Nat → OnceWorld)
    (rests : Nat → PyResult Resultado) : Nat → Nat → Option Resultado
  | 0, _ => none
  | fuel + 1, attempt =>
    match process_funcion_judicial_once (worlds attempt) (rests attempt) with
    | some data => some data
    | none => process_funcion_judicial_attempts worlds rests fuel (attempt + 1)

/-- Embedding of `process_funcion_judicial` (funcion_judicial.py
800-825): input validation, then the retry loop, then the final error
dictionary. -/
def process_funcion_judicial (apellidos_nombres : String)
    (maxRetries : Nat) (worlds : Nat → OnceWorld)
    (rests : Nat → PyResult Resultado) : FJOutput :=
  if apellidos_nombres = "" ∨ apellidos_nombres.trim.length < 3 then
    .errorDict
      "Función Judicial: Ingresa apellidos y nombres válidos (mínimo 3 caracteres)"
  else
    match process_funcion_judicial_attempts worlds rests maxRetries 1 with
    | some data => .data data
    | none =>
      .errorDict ("No se pudo procesar la consulta tras " ++
        toString maxRetries ++ " intentos")

/-- The name `wait_random` is bound nowhere: not by the imports or the
module-level definitions of `flows/funcion_judicial.py`, and not by
`core/human.py` either. -/
theorem wait_random_unbound :
    "wait_random" ∉ funcion_judicial_scope ∧
    "wait_random" ∉ core_human_defs := by
  decide

/-- The retry loop returns `none` whenever every attempt returns `none`. -/
theorem process_funcion_judicial_attempts_none
    (worlds : Nat → OnceWorld) (rests : Nat → PyResult Resultado)
    (h : ∀ w rest, process_funcion_judicial_once w rest = none) :
    ∀ fuel attempt,
      process_funcion_judicial_attempts worlds rests fuel attempt = none := by
  intro fuel
  induction fuel with
  | zero => intro attempt; rfl
  | succ f ih =>
    intro attempt
    unfold process_funcion_judicial_attempts
    rw [h (worlds attempt) (rests attempt)]
    exact ih (attempt + 1)

/-- A maximally permissive page environment for concrete evaluation:
button always found and enabled, clicks succeed, captures succeed. -/
def pageEnvAllOk : PageEnv :=
  { buttonFound := some
      { disabledAttr := none, ariaDisabled := none,
        classAttr := some "mat-mdc-paginator-navigation-next",
        jsClickable := true, paginatorLabel := none }
  , humanClickOk := true, directClickOk := true, jsClickOk := true
  , captureResult := some "shot.png" }

/-! ## Claim theorems for the browser flow -/

/-- C1: the browser retrieval strategy never returns a result dictionary
with a scenario.  `wait_random` is bound neither in
`flows/funcion_judicial.py` nor in `core/human.py`, so execution of
`process_funcion_judicial_once` raises `NameError` at the first
`wait_random` call (directly after navigation) — whatever the rest of
the body would do — and the top-level handler returns `None`; hence the
retry wrapper `process_funcion_judicial` always ends with one of its
error dictionaries, for every subject name and retry budget. -/
theorem process_funcion_judicial_always_error :
    ("wait_random" ∉ funcion_judicial_scope ∧
     "wait_random" ∉ core_human_defs) ∧
    (∀ (w : OnceWorld) (rest : PyResult Resultado),
        process_funcion_judicial_once w rest = none) ∧
    (∀ (apellidos_nombres : String) (maxRetries : Nat)
        (worlds : Nat → OnceWorld) (rests : Nat → PyResult Resultado),
        (process_funcion_judicial apellidos_nombres maxRetries worlds
            rests).isErrorDict = true) := by
  have h1 : "create_driver" ∈ funcion_judicial_scope := by decide
  have h2 : "wait_random" ∉ funcion_judicial_scope := wait_random_unbound.1
  have honce : ∀ (w : OnceWorld) (rest : PyResult Resultado),
      process_funcion_judicial_once w rest = none := by
    intro w rest
    obtain ⟨cd, nv⟩ := w
    unfold process_funcion_judicial_once process_funcion_judicial_once_body
      pyCall
    rw [if_pos h1, if_neg h2]
    cases cd <;> cases nv <;> rfl
  refine ⟨wait_random_unbound, honce, ?_⟩
  intro apellidos_nombres maxRetries worlds rests
  unfold process_funcion_judicial
  by_cases hvalid : apellidos_nombres = "" ∨ apellidos_nombres.trim.length < 3
  · rw [if_pos hvalid]; rfl
  · rw [if_neg hvalid,
      process_funcion_judicial_attempts_none worlds rests honce maxRetries 1]
    rfl

/-- Counterexample to C7: under the module's actual name scope the
walker never returns a screenshot list at all — with the source's
default budget of 50 and a fully permissive button environment it
raises `NameError` at its first unguarded `wait_random` call (line 399,
before the loop), so the claimed "ordered list of at most max_pages
screenshot references" is never produced. -/
theorem capture_all_result_pages_never_returns :
    capture_all_result_pages funcion_judicial_scope (fun _ => pageEnvAllOk)
        (some "p1") 50 = PyResult.exn "NameError" := by
  have hcall : pyCall funcion_judicial_scope "wait_random"
      (PyResult.ok ()) = .exn "NameError" :=
    pyCall_not_mem _ _ _ wait_random_unbound.1
  unfold capture_all_result_pages capture_results_page
  rw [hcall]

/-- C7 as amended: under the module's actual name scope,
`capture_all_result_pages` raises `NameError` at its first unguarded
`wait_random` call, before entering the pagination loop, for every
button-state sequence, first capture and budget — it never returns a
screenshot list; under any scope that binds `wait_random` (the evidently
intended behavior), the walker never raises and, for every budget
`max_pages ≥ 1` and every button-state sequence, finishes having visited
at most `max_pages` pages with an ordered list of at most `max_pages`
screenshot references. -/
theorem capture_all_result_pages_corrected :
    (∀ (env : Nat → PageEnv) (firstShot : Option String) (max_pages : Nat),
        capture_all_result_pages funcion_judicial_scope env firstShot
          max_pages = PyResult.exn "NameError") ∧
    (∀ (scope : List String) (env : Nat → PageEnv)
        (firstShot : Option String) (max_pages : Nat),
        "wait_random" ∈ scope → 1 ≤ max_pages →
        capture_all_result_pages scope env firstShot max_pages =
          .ok (capture_all_result_pages_ok env firstShot max_pages) ∧
        (capture_all_result_pages_ok env firstShot max_pages).1.length ≤
          max_pages ∧
        (capture_all_result_pages_ok env firstShot max_pages).2 ≤
          max_pages) := by
  constructor
  · intro env firstShot max_pages
    have hcall : pyCall funcion_judicial_scope "wait_random"
        (PyResult.ok ()) = .exn "NameError" :=
      pyCall_not_mem _ _ _ wait_random_unbound.1
    unfold capture_all_result_pages capture_results_page
    rw [hcall]
  · intro scope env firstShot max_pages hscope hmax
    refine ⟨?_, ?_⟩
    · have hc : pyCall scope "wait_random" (PyResult.ok ()) =
          PyResult.ok () := pyCall_mem _ _ _ hscope
      have hcap : ∀ shot, capture_results_page scope shot = shot :=
        fun shot => capture_results_page_mem _ _ hscope
      have hloop := capture_pages_loop_mem scope env hscope (max_pages - 1) 1
      unfold capture_all_result_pages capture_all_result_pages_ok
      cases firstShot <;> simp [hc, hcap, hloop]
    · have h := capture_pages_loop_ok_bounds env (max_pages - 1) 1
        (match firstShot with
         | some s => [s]
         | none => [])
      have hfc : (match firstShot with
          | some s => ([s] : List String)
          | none => []).length ≤ 1 := by
        cases firstShot <;> simp
      unfold capture_all_result_pages_ok
      exact ⟨h.1.trans (by omega), h.2.trans (by omega)⟩

/-- Witness for the amended C7: a scope binding `wait_random`, the
all-permissive environment and a three-page budget. -/
theorem capture_all_result_pages_corrected_witness :
    ("wait_random" ∈ ["wait_random"] ∧ (1 : Nat) ≤ 3) ∧
    (capture_all_result_pages ["wait_random"] (fun _ => pageEnvAllOk)
          (some "p1") 3 =
        .ok (capture_all_result_pages_ok (fun _ => pageEnvAllOk)
          (some "p1") 3) ∧
      (capture_all_result_pages_ok (fun _ => pageEnvAllOk)
          (some "p1") 3).1.length ≤ 3 ∧
      (capture_all_result_pages_ok (fun _ => pageEnvAllOk)
          (some "p1") 3).2 ≤ 3) :=
  ⟨⟨by decide, by decide⟩,
   capture_all_result_pages_corrected.2 ["wait_random"]
     (fun _ => pageEnvAllOk) (some "p1") 3 (by decide) (by decide)⟩

/-- C8: the next-page-enabled check returns `false` exactly when an
authoritative negative signal is present — any `disabled` attribute,
`aria-disabled="true"`, a curated functionally disabling CSS class,
a failed computed-style script check, or a parsed range label whose end
is not below its total; absent all of these (including every case in
which the paginator-info block yields nothing, which is where the
source's exception handlers land) it returns `true`, and the cosmetic
class `mat-mdc-button-disabled-interactive` alone does not disable. -/
theorem is_next_button_enabled_false_iff :
    (∀ btn : NextButton,
      is_next_button_enabled btn = false ↔
        (btn.disabledAttr.isSome = true ∨
         btn.ariaDisabled = some "true" ∨
         real_disabled_classes.any
           (fun c => pyInStr c (btn.classAttr.getD "")) = true ∨
         btn.jsClickable = false ∨
         (∃ txt endVal total,
            btn.paginatorLabel = some (txt, endVal, total) ∧
            ¬ endVal < total))) ∧
    is_next_button_enabled
      { disabledAttr := none, ariaDisabled := none,
        classAttr := some "mat-mdc-button-disabled-interactive",
        jsClickable := true, paginatorLabel := none } = true := by
  constructor
  · intro btn
    obtain ⟨d, a, c, j, p⟩ := btn
    simp only [is_next_button_enabled]
    rcases p with - | ⟨txt, endVal, total⟩
    · split_ifs with h1 h2 h3 h4
      · simp_all
        rcases h1 with h | h | h <;> simp [h]
      · simp_all
      · simp_all
      · simp_all
      · simp_all
    · split_ifs with h1 h2 h3 h4
      · simp_all
        rcases h1 with h | h | h <;> simp [h]
      · simp_all
      · simp_all
      · simp_all
      · simp_all
        constructor
        · intro h
          exact Or.inr ⟨txt, endVal, total, ⟨rfl, rfl, rfl⟩, h⟩
        · rintro (⟨x, hx, hpy⟩ | ⟨t1, e1, to1, ⟨rfl, rfl, rfl⟩, hle⟩)
          · exact absurd hpy (by simp [h3 x hx])
          · exact hle
  · decide

/-! ## The API fallback strategy `app/services/fj_httpx_fallback.py`

The HTTP world is an explicit input: `responses page` is what the POST
for page `page` comes back with.  The generated DOCX document is
abstracted to the ordered list of case records written into its tables
(one table row per record); headings, the professional header and date
formatting carry no information the claims are about. -/

/-- One case record of the fallback API (the fields the report reads:
`fechaIngreso`, `idJuicio`, `nombreDelito`). -/
structure Caso where
  fechaIngreso : String
  idJuicio : String
  nombreDelito : String
deriving Repr, DecidableEq

/-- Shape of a parsed 200-response body: a JSON object with a `data`
array, a bare JSON array, or anything else. -/
inductive ApiBody where
  | dictBody (data : List Caso)
  | listBody (data : List Caso)
  | otherBody
deriving Repr, DecidableEq

/-- What one page-level POST comes back with: an HTTP response, an
`httpx.TimeoutException`, or any other raised exception. -/
inductive ApiResp where
  | response (status : Nat) (body : ApiBody)
  | timeoutExc
  | otherExc (msg : String)
deriving Repr, DecidableEq

def PAGE_SIZE : Nat := 10

def MAX_PAGES : Nat := 20

def REPORTS_DIR : String := "sri_ruc_output/reports"

/-- Embedding of `_consultar_pagina_api` (fj_httpx_fallback.py 76-143):
non-200 status, timeout, any other exception, and an unparseable body
all yield `None`; an empty result list is returned as the empty list
(the V2 improvement distinguishing "no data" from "error"). -/
def consultar_pagina_api (resp : ApiResp) : Option (List Caso) :=
  match resp with
  | .response status body =>
    if status ≠ 200 then none
    else
      match body with
      | .dictBody data => if data.isEmpty then some [] else some data
      | .listBody data => if data.isEmpty then some [] else some data
      | .otherBody => none
  | .timeoutExc => none
  | .otherExc _ => none

/-- The mutable state of the page loop of `generar_reporte_httpx`
(fj_httpx_fallback.py 226-285): row counter, accumulated record count,
whether any page had data, last data-bearing page, and the records
written into the document's tables so far. -/
structure FJHttpxAcc where
  contador : Nat
  total_resultados : Nat
  alguna_pagina_con_datos : Bool
  pagina_actual : Nat
  doc_casos : List Caso
deriving Repr, DecidableEq

/-- Initial loop state (fj_httpx_fallback.py 227-230). -/
def fj_httpx_acc_init : FJHttpxAcc :=
  { contador := 1, total_resultados := 0, alguna_pagina_con_datos := false,
    pagina_actual := 1, doc_casos := [] }

/-- The `for page in range(1, MAX_PAGES + 1)` loop (fj_httpx_fallback.py
232-285): a `None` page result (network/timeout/server error) breaks, an
empty list (natural end of results) breaks, data accumulates and the
loop advances.  `fuel` is the number of remaining loop indices. -/
def fj_httpx_pages_loop (responses : Nat → ApiResp) :
    Nat → Nat → FJHttpxAcc → FJHttpxAcc
  | 0, _, acc => acc
  | fuel + 1, page, acc =>
    match consultar_pagina_api (responses page) with
    | none => acc
    | some [] => acc
    | some (caso0 :: resto) =>
      fj_httpx_pages_loop responses fuel (page + 1)
        { contador := acc.contador + (caso0 :: resto).length
        , total_resultados := acc.total_resultados + (caso0 :: resto).length
        , alguna_pagina_con_datos := true
        , pagina_actual := page
        , doc_casos := acc.doc_casos ++ (caso0 :: resto) }

/-- The result dictionary of `generar_reporte_httpx`. -/
structure FJHttpxResultado where
  scenario : String
  total_procesos : Nat
  total_paginas : Nat
  mensaje : String
deriving Repr, DecidableEq

/-- The report file name (fj_httpx_fallback.py 300). -/
def fj_reporte_filename (nombre_cliente job_id : String) : String :=
  "reporte_FJ_httpx_" ++ (nombre_cliente.replace " " "_") ++ "_" ++
    job_id ++ ".docx"

/-- Embedding of `generar_reporte_httpx` (fj_httpx_fallback.py 160-338):
page through the API, then always build the report — with a "no
encontraron" paragraph when no page had data — and save it.
`saveError` is `doc.save`'s outcome (`none` = saved); a save failure is
the one modelled path into the `"error"` dictionary, matching the
source, whose other error path is its outermost `except` for a crash
while building the document.  Returns the report path (or `None`), the
result dictionary, and the records the document's tables hold. -/
def generar_reporte_httpx (nombre_cliente job_id : String)
    (responses : Nat → ApiResp) (saveError : Option String) :
    Option String × FJHttpxResultado × List Caso :=
  match saveError, fj_httpx_pages_loop responses MAX_PAGES 1 fj_httpx_acc_init with
  | some e, acc =>
    (none,
     { scenario := "error", total_procesos := 0, total_paginas := 0,
       mensaje := "Error guardando documento: " ++ e },
     acc.doc_casos)
  | none, acc =>
    (some (REPORTS_DIR ++ "/" ++ fj_reporte_filename nombre_cliente job_id),
     { scenario :=
         if acc.alguna_pagina_con_datos then "results_found" else "no_results",
       total_procesos := acc.total_resultados,
       total_paginas := acc.pagina_actual,
       mensaje :=
         if acc.alguna_pagina_con_datos then
           "Se encontraron " ++ toString acc.total_resultados ++
             " procesos judiciales en " ++ toString acc.pagina_actual ++
             " página(s)"
         else "NO SE ENCONTRARON PROCESOS JUDICIALES" },
     acc.doc_casos)

/-- When the loop state says some page had data, at least one record was
accumulated. -/
theorem fj_httpx_pages_loop_alguna_total (responses : Nat → ApiResp) :
    ∀ (fuel page : Nat) (acc : FJHttpxAcc),
      (acc.alguna_pagina_con_datos = true → 0 < acc.total_resultados) →
      (fj_httpx_pages_loop responses fuel page acc).alguna_pagina_con_datos =
          true →
      0 < (fj_httpx_pages_loop responses fuel page acc).total_resultados := by
  intro fuel
  induction fuel with
  | zero => intro page acc hacc h; exact hacc h
  | succ f ih =>
    intro page acc hacc
    unfold fj_httpx_pages_loop
    split
    · exact hacc
    · exact hacc
    · exact ih (page + 1) _ (fun _ => by simp)

/-- A 200 response whose body is a JSON array always parses to its
record list (an empty array comes back as the empty list). -/
theorem consultar_pagina_api_listBody (data : List Caso) :
    consultar_pagina_api (.response 200 (.listBody data)) = some data := by
  cases data <;> rfl

/-- Page responses built from a list of per-page record batches: page
`j + 1` answers 200 with batch `j`, every later page gives `failResp`. -/
def respFromList (ls : List (List Caso)) (failResp : ApiResp) :
    Nat → ApiResp :=
  fun page =>
    if h : page - 1 < ls.length then
      .response 200 (.listBody (ls.get ⟨page - 1, h⟩))
    else failResp

/-- Full run of the page loop over a prefix of data-bearing pages
followed by a failing (or empty) page: the state accumulates exactly the
given batches, in order. -/
theorem fj_httpx_pages_loop_run (R : Nat → ApiResp) :
    ∀ (ls : List (List Caso)) (page fuel : Nat) (acc : FJHttpxAcc),
      (∀ (j : Nat) (hj : j < ls.length),
          consultar_pagina_api (R (page + j)) = some (ls.get ⟨j, hj⟩)) →
      (∀ l ∈ ls, l ≠ []) →
      consultar_pagina_api (R (page + ls.length)) = none →
      ls.length < fuel →
      fj_httpx_pages_loop R fuel page acc =
        { contador := acc.contador + (ls.map List.length).sum
        , total_resultados := acc.total_resultados + (ls.map List.length).sum
        , alguna_pagina_con_datos :=
            acc.alguna_pagina_con_datos || !ls.isEmpty
        , pagina_actual :=
            if ls.isEmpty then acc.pagina_actual else page + ls.length - 1
        , doc_casos := acc.doc_casos ++ ls.flatten } := by
  intro ls
  induction ls with
  | nil =>
    intro page fuel acc hok hne hnone hfuel
    obtain ⟨f, rfl⟩ : ∃ f, fuel = f + 1 := ⟨fuel - 1, by omega⟩
    simp only [List.length_nil, Nat.add_zero] at hnone
    unfold fj_httpx_pages_loop
    rw [hnone]
    cases acc
    simp
  | cons l ls2 ih =>
    intro page fuel acc hok hne hnone hfuel
    obtain ⟨f, rfl⟩ : ∃ f, fuel = f + 1 := ⟨fuel - 1, by omega⟩
    cases l with
    | nil => exact absurd rfl (hne [] (List.mem_cons_self _ _))
    | cons c cs =>
      have h0 : consultar_pagina_api (R page) = some (c :: cs) := by
        have := hok 0 (by simp)
        simpa using this
      unfold fj_httpx_pages_loop
      rw [h0]
      dsimp only
      rw [ih (page + 1) f _
        (fun j hj => by
          have := hok (j + 1) (by simp; omega)
          have harith : page + (j + 1) = page + 1 + j := by omega
          rw [harith] at this
          simpa using this)
        (fun l2 hl2 => hne l2 (List.mem_cons_of_mem (c :: cs) hl2))
        (by
          have harith2 : page + ((c :: cs) :: ls2).length =
              page + 1 + ls2.length := by simp; omega
          rw [harith2] at hnone
          exact hnone)
        (by simp at hfuel; omega)]
      simp only [FJHttpxAcc.mk.injEq]
      refine ⟨by simp; omega, by simp; omega, by simp, ?_, by simp⟩
      rcases ls2 with _ | ⟨l2h, l2t⟩
      · simp
      · simp
        omega

/-! ## Claim theorems for the API fallback -/

/-- C4: the fallback produces its report even with zero records — a
saved document and outcome `no_results` — and yields the `error`
dictionary exactly when the document could not be saved, never merely
because zero records were found. -/
theorem generar_reporte_httpx_error_iff_save
    (nombre_cliente job_id : String) (responses : Nat → ApiResp)
    (saveError : Option String) :
    ((generar_reporte_httpx nombre_cliente job_id responses
          saveError).2.1.scenario = "error" ↔ saveError.isSome = true) ∧
    (saveError = none →
      (generar_reporte_httpx nombre_cliente job_id responses
          saveError).2.1.total_procesos = 0 →
      (generar_reporte_httpx nombre_cliente job_id responses
            saveError).2.1.scenario = "no_results" ∧
        (generar_reporte_httpx nombre_cliente job_id responses
            saveError).1.isSome = true) := by
  cases saveError with
  | some e =>
    refine ⟨by simp [generar_reporte_httpx], by intro h; exact absurd h (by simp)⟩
  | none =>
    constructor
    · simp only [generar_reporte_httpx, Option.isSome_none]
      by_cases halg :
          (fj_httpx_pages_loop responses MAX_PAGES 1
              fj_httpx_acc_init).alguna_pagina_con_datos = true
      · simp [halg]
      · simp only [Bool.not_eq_true] at halg
        simp [halg]
    · intro _ htotal
      have halg :
          (fj_httpx_pages_loop responses MAX_PAGES 1
              fj_httpx_acc_init).alguna_pagina_con_datos = false := by
        by_contra hcon
        simp only [Bool.not_eq_false] at hcon
        have := fj_httpx_pages_loop_alguna_total responses MAX_PAGES 1
          fj_httpx_acc_init (by intro h; simp [fj_httpx_acc_init] at h) hcon
        simp only [generar_reporte_httpx] at htotal
        omega
      constructor
      · simp [generar_reporte_httpx, halg]
      · simp [generar_reporte_httpx]

/-- Witness for C4: with every page answering 200 and an empty data
array, and a successful save, the fallback returns `no_results` with a
report path and no `error` dictionary. -/
theorem generar_reporte_httpx_error_iff_save_witness :
    ((generar_reporte_httpx "JUAN PEREZ" "job1"
          (fun _ => .response 200 (.dictBody [])) none).2.1.scenario = "error"
        ↔ (none : Option String).isSome = true) ∧
    ((generar_reporte_httpx "JUAN PEREZ" "job1"
          (fun _ => .response 200 (.dictBody [])) none).2.1.scenario =
        "no_results" ∧
      (generar_reporte_httpx "JUAN PEREZ" "job1"
          (fun _ => .response 200 (.dictBody [])) none).1.isSome = true) :=
  ⟨(generar_reporte_httpx_error_iff_save "JUAN PEREZ" "job1"
      (fun _ => .response 200 (.dictBody [])) none).1,
   (generar_reporte_httpx_error_iff_save "JUAN PEREZ" "job1"
      (fun _ => .response 200 (.dictBody [])) none).2 rfl (by rfl)⟩

/-- Counterexample to C5: when the first API page call times out (zero
records accumulated) and the document saves, the fallback's outcome is
`no_results` — not `error` as the claim states. -/
theorem fallback_page1_timeout_not_error :
    (generar_reporte_httpx "JUAN PEREZ" "job1" (fun _ => ApiResp.timeoutExc)
        none).2.1.scenario = "no_results" ∧
    ("no_results" : String) ≠ "error" := by
  exact ⟨rfl, by decide⟩

/-- C6: when the fallback accumulates `N > 0` records over successful
pages and a later page call fails (non-200, timeout or transport error),
paging stops early but the report still reflects exactly those records:
outcome `results_found`, total count `N`, the document's table rows
being precisely the accumulated records, and a report path. -/
theorem generar_reporte_httpx_partial_records
    (nombre_cliente job_id : String) (ls : List (List Caso))
    (failResp : ApiResp)
    (hne : ls ≠ []) (hnonempty : ∀ l ∈ ls, l ≠ [])
    (hfail : consultar_pagina_api failResp = none)
    (hlen : ls.length < MAX_PAGES) :
    (generar_reporte_httpx nombre_cliente job_id (respFromList ls failResp)
        none).2.1.scenario = "results_found" ∧
    (generar_reporte_httpx nombre_cliente job_id (respFromList ls failResp)
        none).2.1.total_procesos = (ls.map List.length).sum ∧
    (generar_reporte_httpx nombre_cliente job_id (respFromList ls failResp)
        none).2.2 = ls.flatten ∧
    0 < (ls.map List.length).sum ∧
    (generar_reporte_httpx nombre_cliente job_id (respFromList ls failResp)
        none).1.isSome = true := by
  have hrun := fj_httpx_pages_loop_run (respFromList ls failResp) ls 1
    MAX_PAGES fj_httpx_acc_init
    (fun j hj => by
      have hidx : (1 + j) - 1 = j := by omega
      simp only [respFromList, hidx, hj, dif_pos]
      exact consultar_pagina_api_listBody _)
    hnonempty
    (by
      have hidx : ¬ ((1 + ls.length) - 1 < ls.length) := by omega
      simp only [respFromList, hidx, dif_neg, not_false_eq_true]
      exact hfail)
    hlen
  have hlsne : ls.isEmpty = false := by
    cases ls with
    | nil => exact absurd rfl hne
    | cons a b => rfl
  have hsum : 0 < (ls.map List.length).sum := by
    cases ls with
    | nil => exact absurd rfl hne
    | cons a b =>
      have : a ≠ [] := hnonempty a (List.mem_cons_self _ _)
      have : 0 < a.length := by
        cases a with
        | nil => exact absurd rfl this
        | cons x xs => simp
      simp
      omega
  refine ⟨?_, ?_, ?_, hsum, ?_⟩
  · simp only [generar_reporte_httpx]
    rw [hrun]
    simp [fj_httpx_acc_init, hlsne]
  · simp only [generar_reporte_httpx]
    rw [hrun]
    simp [fj_httpx_acc_init]
  · simp only [generar_reporte_httpx]
    rw [hrun]
    simp [fj_httpx_acc_init]
  · simp [generar_reporte_httpx]

/-- A concrete case record for witnesses. -/
def casoDemo : Caso :=
  { fechaIngreso := "2025-11-17T00:00:00", idJuicio := "17230-2025-00001",
    nombreDelito := "ALIMENTOS" }

/-- Witness for C6: one successful page with one record, then a timeout:
the report holds exactly that record with outcome `results_found`. -/
theorem generar_reporte_httpx_partial_records_witness :
    ([[casoDemo]] ≠ ([] : List (List Caso)) ∧
     consultar_pagina_api ApiResp.timeoutExc = none ∧
     ([[casoDemo]] : List (List Caso)).length < MAX_PAGES) ∧
    ((generar_reporte_httpx "JUAN PEREZ" "job1"
          (respFromList [[casoDemo]] ApiResp.timeoutExc) none).2.1.scenario =
        "results_found" ∧
      (generar_reporte_httpx "JUAN PEREZ" "job1"
          (respFromList [[casoDemo]] ApiResp.timeoutExc) none).2.1.total_procesos
        = (([[casoDemo]] : List (List Caso)).map List.length).sum ∧
      (generar_reporte_httpx "JUAN PEREZ" "job1"
          (respFromList [[casoDemo]] ApiResp.timeoutExc) none).2.2 =
        ([[casoDemo]] : List (List Caso)).flatten ∧
      0 < (([[casoDemo]] : List (List Caso)).map List.length).sum ∧
      (generar_reporte_httpx "JUAN PEREZ" "job1"
          (respFromList [[casoDemo]] ApiResp.timeoutExc) none).1.isSome = true) :=
  ⟨⟨by decide, rfl, by decide⟩,
   generar_reporte_httpx_partial_records "JUAN PEREZ" "job1" [[casoDemo]]
     ApiResp.timeoutExc (by decide) (by decide) rfl (by decide)⟩

/-! ## The work-queue daemon `app/services/daemon_procesador.py`

`_ejecutar_consulta_funcion_judicial` (lines 209-370) runs the scraper
and applies the outcome to the consulta, the proceso and the client.
The module imports only `process_funcion_judicial_once` as a retrieval
mechanism — it contains no reference to `fj_httpx_fallback` — which the
effects record makes explicit through `fallback_invocado`. -/

/-- Outcome of the `process_funcion_judicial_once` call inside the
daemon's `try` (line 257): a returned value, or a raised exception
(caught by the `except` at line 340). -/
inductive ScraperOutcome where
  | returns (r : Option Resultado)
  | raises (msg : String)
deriving Repr, DecidableEq

/-- The `hay_resultados` decision (daemon_procesador.py 271-275). -/
def hay_resultados (r : Resultado) : Bool :=
  decide (r.scenario = "results_found") && decide (0 < r.total_pages) &&
    decide (0 < r.screenshots.length)

/-- The externally visible effects of one
`_ejecutar_consulta_funcion_judicial` run (proceso and consulta found):
final states written to the database, whether the DOCX report generator
ran, and whether the HTTPX fallback was invoked. -/
structure ConsultaEffects where
  consulta_estado : String
  consulta_mensaje_error : Option String
  proceso_estado : String
  cliente_estado : String
  reporte_generado : Bool
  fallback_invocado : Bool
deriving Repr, DecidableEq

/-- Embedding of steps 6-8 of `_ejecutar_consulta_funcion_judicial`
(daemon_procesador.py 254-352): CASO 1 (`results_found` with pages and
screenshots) completes and marks the client `Procesado`; CASO 2 (any
other scenario, `no_results` and `indeterminate` included) marks the
consulta failed and returns the client to `Pendiente`; a `None` result
or a raised exception likewise returns the client to `Pendiente`.
No branch invokes the HTTPX fallback — the module never imports it. -/
def ejecutar_consulta_funcion_judicial (outcome : ScraperOutcome) :
    ConsultaEffects :=
  match outcome with
  | .returns (some r) =>
    if hay_resultados r then
      { consulta_estado := "Exitosa", consulta_mensaje_error := none,
        proceso_estado := "Completado", cliente_estado := "Procesado",
        reporte_generado := true, fallback_invocado := false }
    else
      { consulta_estado := "Fallida",
        consulta_mensaje_error :=
          some ("Sin resultados válidos - Escenario: " ++ r.scenario),
        proceso_estado := "Completado_Con_Errores",
        cliente_estado := "Pendiente",
        reporte_generado := false, fallback_invocado := false }
  | .returns none =>
      { consulta_estado := "Fallida",
        consulta_mensaje_error := some "Scraper no retornó resultados",
        proceso_estado := "Completado_Con_Errores",
        cliente_estado := "Pendiente",
        reporte_generado := false, fallback_invocado := false }
  | .raises e =>
      { consulta_estado := "Fallida",
        consulta_mensaje_error := some ("Error en scraper: " ++ e),
        proceso_estado := "Error_Total",
        cliente_estado := "Pendiente",
        reporte_generado := false, fallback_invocado := false }

/-- A row of `de_clientes` as the daemon reads it. -/
structure DeClienteRow where
  id : Nat
  nombre : Option String
  apellido : Option String
  estado : String
  fecha_creacion : Nat
deriving Repr, DecidableEq

/-- Python truthiness test `not cliente.nombre` for an optional string
column: `NULL` and the empty string are falsy. -/
def pyFalsyStr (s : Option String) : Bool :=
  match s with
  | none => true
  | some t => decide (t = "")

/-- Embedding of `_crear_proceso_para_cliente` (daemon_procesador.py
132-206): a client without both name parts is set to `Error` and no
proceso is created; a missing `funcion_judicial` page row also yields
`None` (without a state change); otherwise the proceso is created.
Returns the new proceso id and the estado updates issued. -/
def crear_proceso_para_cliente (c : DeClienteRow) (pagina_existe : Bool)
    (new_pid : Nat) : Option Nat × List (Nat × String) :=
  if pyFalsyStr c.nombre || pyFalsyStr c.apellido then
    (none, [(c.id, "Error")])
  else if !pagina_existe then
    (none, [])
  else
    (some new_pid, [])

/-- Trace of the per-client body of `_procesar_lote_clientes`:
the ordered estado updates and whether the retrieval strategy ran. -/
structure ClienteCycleTrace where
  estado_updates : List (Nat × String)
  consulta_ejecutada : Bool
deriving Repr, DecidableEq

/-- Embedding of steps 2.1-2.3 of `_procesar_lote_clientes`
(daemon_procesador.py 415-446): set `Procesando`, create the proceso;
if creation failed set `Error` and continue without running any
retrieval strategy; otherwise run
`_ejecutar_consulta_funcion_judicial`, whose client-state update is the
last one of the cycle. -/
def procesar_cliente (c : DeClienteRow) (pagina_existe : Bool)
    (new_pid : Nat) (outcome : ScraperOutcome) : ClienteCycleTrace :=
  match crear_proceso_para_cliente c pagina_existe new_pid with
  | (none, updates) =>
    { estado_updates := [(c.id, "Procesando")] ++ updates ++ [(c.id, "Error")],
      consulta_ejecutada := false }
  | (some _, updates) =>
    { estado_updates := [(c.id, "Procesando")] ++ updates ++
        [(c.id, (ejecutar_consulta_funcion_judicial outcome).cliente_estado)],
      consulta_ejecutada := true }

/-- Embedding of `_obtener_clientes_pendientes` (daemon_procesador.py
375-392): filter estado `Pendiente`, order by `fecha_creacion`
ascending, take the first `limite`. -/
def obtener_clientes_pendientes (clientes : List DeClienteRow)
    (limite : Nat) : List DeClienteRow :=
  ((clientes.filter (fun c => decide (c.estado = "Pendiente"))).mergeSort
      (fun c1 c2 => decide (c1.fecha_creacion ≤ c2.fecha_creacion))).take
    limite

/-! ### The daemon loop `_daemon_loop` (claim C9) -/

def DAEMON_WAIT_TIME : Nat := 30 * 60

def DAEMON_CHECK_INTERVAL : Nat := 10

/-- The inner wait of `_daemon_loop` (daemon_procesador.py 467-478):
`while elapsed < wait_time and daemon_state.running:` sleep one interval
and add it to `elapsed`; the running flag is sampled at every
sub-interval.  `running t` is the flag's value when the condition is
checked at elapsed time `t`; the fuel bounds the number of iterations
(the caller passes more than `wait_time / interval`). -/
def daemon_wait_loop (running : Nat → Bool) : Nat → Nat → Nat
  | 0, elapsed => elapsed
  | fuel + 1, elapsed =>
    if decide (elapsed < DAEMON_WAIT_TIME) && running elapsed then
      daemon_wait_loop running fuel (elapsed + DAEMON_CHECK_INTERVAL)
    else elapsed

/-- What one iteration of `_daemon_loop` did. -/
structure CycleRecord where
  index : Nat
  raised : Bool
  backoff_applied : Bool
  wait_elapsed : Nat
deriving Repr, DecidableEq

/-- Embedding of the `while daemon_state.running` loop of `_daemon_loop`
(daemon_procesador.py 458-491).  `running i` is the flag sampled at the
top of iteration `i`; `raises i` is whether the cycle body
(`_procesar_lote_clientes`) raises there; `sleepRunning i` is the flag
during iteration `i`'s inter-cycle wait.  A raised exception is caught
at loop level and followed by the 60-second backoff (skipping the long
wait); either way the loop returns to its top.  The fuel only truncates
the observation window of this unbounded loop. -/
def daemon_loop (running : Nat → Bool) (raises : Nat → Bool)
    (sleepRunning : Nat → Nat → Bool) : Nat → Nat → List CycleRecord
  | 0, _ => []
  | fuel + 1, i =>
    if running i then
      (if raises i then
        { index := i, raised := true, backoff_applied := true,
          wait_elapsed := 0 }
      else
        { index := i, raised := false, backoff_applied := false,
          wait_elapsed :=
            daemon_wait_loop (sleepRunning i)
              (DAEMON_WAIT_TIME / DAEMON_CHECK_INTERVAL + 1) 0 }) ::
      daemon_loop running raises sleepRunning fuel (i + 1)
    else []

/-- The wait loop stops at the first sub-interval sample at which the
running flag is false (generalized over the starting sample index). -/
theorem daemon_wait_loop_stops_aux (run : Nat → Bool) :
    ∀ (d m fuel : Nat),
      (∀ j, m ≤ j → j < m + d → run (DAEMON_CHECK_INTERVAL * j) = true) →
      run (DAEMON_CHECK_INTERVAL * (m + d)) = false →
      DAEMON_CHECK_INTERVAL * (m + d) < DAEMON_WAIT_TIME →
      d < fuel →
      daemon_wait_loop run fuel (DAEMON_CHECK_INTERVAL * m) =
        DAEMON_CHECK_INTERVAL * (m + d) := by
  intro d
  induction d with
  | zero =>
    intro m fuel htrue hfalse hbound hfuel
    obtain ⟨f, rfl⟩ : ∃ f, fuel = f + 1 := ⟨fuel - 1, by omega⟩
    unfold daemon_wait_loop
    simp only [Nat.add_zero] at hfalse
    rw [hfalse]
    simp
  | succ d2 ih =>
    intro m fuel htrue hfalse hbound hfuel
    obtain ⟨f, rfl⟩ : ∃ f, fuel = f + 1 := ⟨fuel - 1, by omega⟩
    unfold daemon_wait_loop
    have hrunm : run (DAEMON_CHECK_INTERVAL * m) = true :=
      htrue m (Nat.le_refl m) (by omega)
    have hlt : DAEMON_CHECK_INTERVAL * m < DAEMON_WAIT_TIME := by
      have : DAEMON_CHECK_INTERVAL * m ≤
          DAEMON_CHECK_INTERVAL * (m + (d2 + 1)) :=
        Nat.mul_le_mul_left _ (by omega)
      omega
    have hc : (decide (DAEMON_CHECK_INTERVAL * m < DAEMON_WAIT_TIME) &&
        run (DAEMON_CHECK_INTERVAL * m)) = true := by
      rw [hrunm, Bool.and_true]
      exact decide_eq_true hlt
    rw [hc, if_pos rfl]
    have hstep : DAEMON_CHECK_INTERVAL * m + DAEMON_CHECK_INTERVAL =
        DAEMON_CHECK_INTERVAL * (m + 1) := by ring
    rw [hstep]
    have harith : m + 1 + d2 = m + (d2 + 1) := by omega
    have := ih (m + 1) f
      (fun j hj1 hj2 => htrue j (by omega) (by omega))
      (by rw [harith]; exact hfalse)
      (by rw [harith]; exact hbound)
      (by omega)
    rw [this, harith]

/-- The daemon loop trace ends before its observation window is used up
only at an iteration whose running flag is false. -/
theorem daemon_loop_stops_only_when_flag_false
    (running : Nat → Bool) (raises : Nat → Bool)
    (sleepRunning : Nat → Nat → Bool) :
    ∀ (fuel i : Nat),
      (daemon_loop running raises sleepRunning fuel i).length < fuel →
      running (i + (daemon_loop running raises sleepRunning fuel i).length) =
        false := by
  intro fuel
  induction fuel with
  | zero => intro i h; omega
  | succ f ih =>
    intro i h
    by_cases hrun : running i = true
    · rw [daemon_loop] at h ⊢
      simp only [hrun, if_true] at h ⊢
      simp only [List.length_cons] at h ⊢
      have harith : i + ((daemon_loop running raises sleepRunning f
          (i + 1)).length + 1) =
          (i + 1) + (daemon_loop running raises sleepRunning f (i + 1)).length :=
        by omega
      rw [harith]
      exact ih (i + 1) (by omega)
    · simp only [Bool.not_eq_true] at hrun
      rw [daemon_loop]
      simp only [hrun, Bool.false_eq_true, if_false, List.length_nil,
        Nat.add_zero]

/-! ## Claim theorems for the daemon -/

/-- The result dictionary the browser strategy builds in its no-results
branch (funcion_judicial.py 702-718) for subject "JUAN PEREZ": scenario
`no_results`, zero pages, the notification capture plus the final
screenshot. -/
def resultado_no_results_juan : Resultado :=
  { success := true, nombre_buscado := "JUAN PEREZ",
    scenario := "no_results",
    mensaje := "No se encontraron procesos judiciales",
    screenshots := [some "funcion_judicial_juan_perez_SIN_RESULTADOS.png",
                    some "99_FINAL_juan_perez.png"],
    total_pages := 0,
    screenshot_path := some "funcion_judicial_juan_perez_SIN_RESULTADOS.png" }

/-- The result dictionary of the indeterminate branch
(funcion_judicial.py 744-760) for subject "JUAN PEREZ". -/
def resultado_indeterminado_juan : Resultado :=
  { success := true, nombre_buscado := "JUAN PEREZ",
    scenario := "indeterminate",
    mensaje := "No se pudo determinar el estado de los resultados",
    screenshots := [some "06_estado_indeterminado_juan_perez.png",
                    some "99_FINAL_juan_perez.png"],
    total_pages := 0,
    screenshot_path := some "06_estado_indeterminado_juan_perez.png" }

/-- Counterexample to C2: on the browser strategy's no-results
dictionary — exactly what the no-results branch of the source builds —
the daemon resets the client to `Pendiente`; the cycle does not resolve
to the Done/`Procesado` state the claim requires. -/
theorem no_results_cycle_not_done :
    (ejecutar_consulta_funcion_judicial
        (.returns (some resultado_no_results_juan))).cliente_estado =
      "Pendiente" ∧
    ("Pendiente" : String) ≠ "Procesado" := by
  decide

/-- C2 as amended: whenever the browser strategy classifies a cycle as
`no_results`, the daemon marks the consulta `Fallida`, the proceso
`Completado_Con_Errores`, and returns the client to `Pendiente` for a
future retry — the cycle is not resolved as Done/`Procesado`. -/
theorem no_results_resolution_amended (r : Resultado)
    (h : r.scenario = "no_results") :
    (ejecutar_consulta_funcion_judicial (.returns (some r))).cliente_estado =
        "Pendiente" ∧
    (ejecutar_consulta_funcion_judicial (.returns (some r))).proceso_estado =
        "Completado_Con_Errores" ∧
    (ejecutar_consulta_funcion_judicial (.returns (some r))).consulta_estado =
        "Fallida" ∧
    (ejecutar_consulta_funcion_judicial (.returns (some r))).cliente_estado ≠
        "Procesado" := by
  have hnr : hay_resultados r = false := by
    simp [hay_resultados, h]
  simp [ejecutar_consulta_funcion_judicial, hnr]

/-- Witness for the amended C2 at the concrete no-results dictionary. -/
theorem no_results_resolution_amended_witness :
    resultado_no_results_juan.scenario = "no_results" ∧
    ((ejecutar_consulta_funcion_judicial
          (.returns (some resultado_no_results_juan))).cliente_estado =
        "Pendiente" ∧
      (ejecutar_consulta_funcion_judicial
          (.returns (some resultado_no_results_juan))).proceso_estado =
        "Completado_Con_Errores" ∧
      (ejecutar_consulta_funcion_judicial
          (.returns (some resultado_no_results_juan))).consulta_estado =
        "Fallida" ∧
      (ejecutar_consulta_funcion_judicial
          (.returns (some resultado_no_results_juan))).cliente_estado ≠
        "Procesado") :=
  ⟨rfl, no_results_resolution_amended resultado_no_results_juan rfl⟩

/-- Counterexample to C3: a cycle the browser strategy ends as
Indeterminate — and likewise one it ends with a raised exception — is
resolved by the daemon without the HTTPX fallback ever being invoked. -/
theorem indeterminate_cycle_no_fallback :
    (ejecutar_consulta_funcion_judicial
        (.returns (some resultado_indeterminado_juan))).fallback_invocado =
      false ∧
    (ejecutar_consulta_funcion_judicial
        (.raises "WebDriverException")).fallback_invocado = false := by
  decide

/-- C3 as amended: the daemon never invokes the API fallback
(`generar_reporte_httpx` has no caller in the daemon module): for every
scraper outcome the cycle is resolved by the browser strategy alone,
the client ending either `Procesado` or `Pendiente`. -/
theorem daemon_never_invokes_fallback (outcome : ScraperOutcome) :
    (ejecutar_consulta_funcion_judicial outcome).fallback_invocado = false ∧
    ((ejecutar_consulta_funcion_judicial outcome).cliente_estado =
        "Procesado" ∨
      (ejecutar_consulta_funcion_judicial outcome).cliente_estado =
        "Pendiente") := by
  rcases outcome with r | e
  · cases r with
    | none => exact ⟨rfl, Or.inr rfl⟩
    | some r =>
      simp only [ejecutar_consulta_funcion_judicial]
      by_cases h : hay_resultados r = true
      · simp [h]
      · simp only [Bool.not_eq_true] at h
        simp [h]
  · exact ⟨rfl, Or.inr rfl⟩

/-- C5 as amended: a browser-Indeterminate cycle does reset the client
to `Pendiente` — but without the API fallback being invoked; and the
fallback itself, on a first-page failure (timeout included) with zero
records accumulated, returns outcome `no_results` together with a saved
report, not `error` (which is reserved for a failed save). -/
theorem indeterminate_and_fallback_timeout_amended :
    (∀ r : Resultado, r.scenario = "indeterminate" →
        (ejecutar_consulta_funcion_judicial
            (.returns (some r))).cliente_estado = "Pendiente" ∧
        (ejecutar_consulta_funcion_judicial
            (.returns (some r))).fallback_invocado = false) ∧
    (∀ (nombre job : String) (responses : Nat → ApiResp),
        consultar_pagina_api (responses 1) = none →
        (generar_reporte_httpx nombre job responses none).2.1.scenario =
            "no_results" ∧
        (generar_reporte_httpx nombre job responses none).1.isSome = true) := by
  constructor
  · intro r h
    have hnr : hay_resultados r = false := by
      simp [hay_resultados, h]
    simp [ejecutar_consulta_funcion_judicial, hnr]
  · intro nombre job responses h
    have hrun := fj_httpx_pages_loop_run responses [] 1 MAX_PAGES
      fj_httpx_acc_init
      (fun j hj => absurd hj (by simp))
      (fun l hl => absurd hl (by simp))
      (by simpa using h)
      (by decide)
    constructor
    · simp only [generar_reporte_httpx]
      rw [hrun]
      simp [fj_httpx_acc_init]
    · simp [generar_reporte_httpx]

/-- Witness for the amended C5: the indeterminate dictionary and an
all-timeout API world. -/
theorem indeterminate_and_fallback_timeout_amended_witness :
    (resultado_indeterminado_juan.scenario = "indeterminate" ∧
     consultar_pagina_api ((fun _ => ApiResp.timeoutExc) 1) = none) ∧
    ((ejecutar_consulta_funcion_judicial
          (.returns (some resultado_indeterminado_juan))).cliente_estado =
        "Pendiente" ∧
      (ejecutar_consulta_funcion_judicial
          (.returns (some resultado_indeterminado_juan))).fallback_invocado =
        false) ∧
    ((generar_reporte_httpx "JUAN PEREZ" "jobW"
          (fun _ => ApiResp.timeoutExc) none).2.1.scenario = "no_results" ∧
      (generar_reporte_httpx "JUAN PEREZ" "jobW"
          (fun _ => ApiResp.timeoutExc) none).1.isSome = true) :=
  ⟨⟨rfl, rfl⟩,
   indeterminate_and_fallback_timeout_amended.1 resultado_indeterminado_juan
     rfl,
   indeterminate_and_fallback_timeout_amended.2 "JUAN PEREZ" "jobW"
     (fun _ => ApiResp.timeoutExc) rfl⟩

/-- C9: (1) an exception in the cycle body is caught at loop level —
the cycle is recorded with its backoff and, whenever the flag is still
true, the next cycle runs right after it, whether or not the previous
body raised; (2) the loop's trace ends before its observation window is
exhausted only at an iteration whose running flag is false (the loop
terminates only via the stop signal); (3) the inter-cycle wait returns
at the first 10-second sub-interval at which the flag is cleared,
rather than sleeping out the full 30-minute wait. -/
theorem daemon_loop_liveness :
    (∀ (running raises : Nat → Bool) (sleepRunning : Nat → Nat → Bool)
        (fuel i : Nat),
        running i = true → running (i + 1) = true → 2 ≤ fuel →
        ((daemon_loop running raises sleepRunning fuel i).map
            (fun rec => (rec.index, rec.raised, rec.backoff_applied))).take 2
          = [(i, raises i, raises i),
             (i + 1, raises (i + 1), raises (i + 1))]) ∧
    (∀ (running raises : Nat → Bool) (sleepRunning : Nat → Nat → Bool)
        (fuel i : Nat),
        (daemon_loop running raises sleepRunning fuel i).length < fuel →
        running (i + (daemon_loop running raises sleepRunning fuel i).length)
          = false) ∧
    (∀ (run : Nat → Bool) (d fuel : Nat),
        (∀ j, j < d → run (DAEMON_CHECK_INTERVAL * j) = true) →
        run (DAEMON_CHECK_INTERVAL * d) = false →
        DAEMON_CHECK_INTERVAL * d < DAEMON_WAIT_TIME →
        d < fuel →
        daemon_wait_loop run fuel 0 = DAEMON_CHECK_INTERVAL * d) := by
  refine ⟨?_, daemon_loop_stops_only_when_flag_false, ?_⟩
  · intro running raises sleepRunning fuel i h0 h1 hfuel
    obtain ⟨f, rfl⟩ : ∃ f, fuel = f + 2 := ⟨fuel - 2, by omega⟩
    rw [daemon_loop, daemon_loop]
    cases hr0 : raises i <;> cases hr1 : raises (i + 1) <;>
      simp [h0, h1, hr0, hr1]
  · intro run d fuel htrue hfalse hbound hfuel
    have := daemon_wait_loop_stops_aux run d 0 fuel
      (fun j hj1 hj2 => htrue j (by omega))
      (by simpa using hfalse)
      (by simpa using hbound)
      hfuel
    simpa using this

/-- Witness for C9: a flag that stays up for two cycles with the first
body raising; a flag that drops after one cycle; and a wait whose flag
is cleared at the second sub-interval sample. -/
theorem daemon_loop_liveness_witness :
    (((daemon_loop (fun i => decide (i < 2)) (fun i => decide (i = 0))
          (fun _ _ => false) 2 0).map
        (fun rec => (rec.index, rec.raised, rec.backoff_applied))).take 2
      = [(0, true, true), (1, false, false)]) ∧
    ((fun i => decide (i < 1))
        (0 + (daemon_loop (fun i => decide (i < 1)) (fun _ => false)
            (fun _ _ => false) 3 0).length) = false) ∧
    daemon_wait_loop (fun t => decide (t < 10)) 181 0 =
      DAEMON_CHECK_INTERVAL * 1 := by
  refine ⟨?_, ?_, ?_⟩
  · have := daemon_loop_liveness.1 (fun i => decide (i < 2))
      (fun i => decide (i = 0)) (fun _ _ => false) 2 0
      (by decide) (by decide) (by decide)
    simpa using this
  · exact daemon_loop_liveness.2.1 (fun i => decide (i < 1)) (fun _ => false)
      (fun _ _ => false) 3 0 (by decide)
  · exact daemon_loop_liveness.2.2 (fun t => decide (t < 10)) 1 181
      (by decide) (by decide) (by decide) (by decide)

/-- Witness for C1: even when driver creation and navigation succeed and
the unreachable rest of the body would return a full no-results
dictionary, the strategy returns `None` and the wrapper an error
dictionary. -/
theorem process_funcion_judicial_always_error_witness :
    process_funcion_judicial_once
        { createDriverOk := true, navigateOk := true }
        (PyResult.ok resultado_no_results_juan) = none ∧
    (process_funcion_judicial "JUAN PEREZ" 3
        (fun _ => { createDriverOk := true, navigateOk := true })
        (fun _ => PyResult.ok resultado_no_results_juan)).isErrorDict =
      true :=
  ⟨process_funcion_judicial_always_error.2.1
     { createDriverOk := true, navigateOk := true }
     (PyResult.ok resultado_no_results_juan),
   process_funcion_judicial_always_error.2.2 "JUAN PEREZ" 3
     (fun _ => { createDriverOk := true, navigateOk := true })
     (fun _ => PyResult.ok resultado_no_results_juan)⟩

/-- Witness for the amended C3 at the indeterminate dictionary. -/
theorem daemon_never_invokes_fallback_witness :
    (ejecutar_consulta_funcion_judicial
        (.returns (some resultado_indeterminado_juan))).fallback_invocado =
      false ∧
    ((ejecutar_consulta_funcion_judicial
          (.returns (some resultado_indeterminado_juan))).cliente_estado =
        "Procesado" ∨
      (ejecutar_consulta_funcion_judicial
          (.returns (some resultado_indeterminado_juan))).cliente_estado =
        "Pendiente") :=
  daemon_never_invokes_fallback (.returns (some resultado_indeterminado_juan))

/-- The button carrying only the cosmetic disabled-looking class. -/
def btnCosmetic : NextButton :=
  { disabledAttr := none, ariaDisabled := none,
    classAttr := some "mat-mdc-button-disabled-interactive",
    jsClickable := true, paginatorLabel := none }

/-- Witness for C8 at the cosmetic-class button. -/
theorem is_next_button_enabled_false_iff_witness :
    is_next_button_enabled btnCosmetic = false ↔
      (btnCosmetic.disabledAttr.isSome = true ∨
       btnCosmetic.ariaDisabled = some "true" ∨
       real_disabled_classes.any
         (fun c => pyInStr c (btnCosmetic.classAttr.getD "")) = true ∨
       btnCosmetic.jsClickable = false ∨
       (∃ txt endVal total,
          btnCosmetic.paginatorLabel = some (txt, endVal, total) ∧
          ¬ endVal < total)) :=
  is_next_button_enabled_false_iff.1 btnCosmetic

/-- A client row with the first name missing. -/
def cliente_sin_nombre : DeClienteRow :=
  { id := 7, nombre := none, apellido := some "PEREZ",
    estado := "Pendiente", fecha_creacion := 0 }

/-- C10: a selected Pending client whose record lacks a first or last
name is marked `Error` — the scraper is not invoked, the cycle's estado
updates end in `Error` (not `Pendiente`) — and `Error` rows never pass
the pending selection, so the client is excluded from future automatic
retry. -/
theorem missing_identity_marks_error (c : DeClienteRow)
    (pagina_existe : Bool) (new_pid : Nat) (outcome : ScraperOutcome)
    (h : pyFalsyStr c.nombre = true ∨ pyFalsyStr c.apellido = true) :
    (procesar_cliente c pagina_existe new_pid outcome).consulta_ejecutada =
        false ∧
    (procesar_cliente c pagina_existe new_pid outcome).estado_updates =
        [(c.id, "Procesando"), (c.id, "Error"), (c.id, "Error")] ∧
    (∀ (clientes : List DeClienteRow) (limite : Nat) (c2 : DeClienteRow),
        c2 ∈ obtener_clientes_pendientes clientes limite →
        c2.estado ≠ "Error") := by
  have hfalsy : (pyFalsyStr c.nombre || pyFalsyStr c.apellido) = true := by
    rcases h with h | h <;> simp [h]
  have hcrear : crear_proceso_para_cliente c pagina_existe new_pid =
      (none, [(c.id, "Error")]) := by
    unfold crear_proceso_para_cliente
    rw [if_pos hfalsy]
  refine ⟨?_, ?_, ?_⟩
  · simp [procesar_cliente, hcrear]
  · simp [procesar_cliente, hcrear]
  · intro clientes limite c2 hc2
    unfold obtener_clientes_pendientes at hc2
    have h1 := List.take_subset _ _ hc2
    have h2 := List.mem_mergeSort.mp h1
    have h3 := (List.mem_filter.mp h2).2
    have h4 : c2.estado = "Pendiente" := of_decide_eq_true h3
    rw [h4]
    decide

/-- Witness for C10 at a concrete client row missing its first name. -/
theorem missing_identity_marks_error_witness :
    (pyFalsyStr cliente_sin_nombre.nombre = true ∨
      pyFalsyStr cliente_sin_nombre.apellido = true) ∧
    (procesar_cliente cliente_sin_nombre true 42
          (.returns none)).consulta_ejecutada = false ∧
    (procesar_cliente cliente_sin_nombre true 42
          (.returns none)).estado_updates =
      [(7, "Procesando"), (7, "Error"), (7, "Error")] :=
  ⟨Or.inl (by decide),
   (missing_identity_marks_error cliente_sin_nombre true 42 (.returns none)
      (Or.inl (by decide))).1,
   (missing_identity_marks_error cliente_sin_nombre true 42 (.returns none)
      (Or.inl (by decide))).2.1⟩

end FJ
